import Mathlib

/-!
Shallow embedding of the GreenVerse backend's order/inventory and
cluster/production logic (Express route handlers over a relational store),
together with proofs of the specification's claims about them.

Modelling conventions:
* Row ids are `Nat` (the real store uses UUIDs; only equality is ever used).
* Money columns (`DECIMAL(10,2)` prices, amounts) are `ℚ`; integer columns
  (stock, quantities) are `ℤ`; dates are `String` (ISO `YYYY-MM-DD`, whose
  lexicographic order agrees with chronological order).
* JavaScript truthiness on strings/options: `""` and `none`/`null` are falsy.
* The database state is an explicit structure threaded through each handler;
  each handler returns its result together with the new state.
-/

/-- A row of the `products` table (the columns read by the order routes). -/
structure Product where
  id : Nat
  name : String
  price : ℚ
  stock : Int
deriving Repr, DecidableEq

/-- A row of the `client_profiles` table (the columns read at checkout). -/
structure ClientProfile where
  user_id : Nat
  phone : String
  city : String
  district : String
  state : String
  address_line : String
deriving Repr, DecidableEq

/-- One line of the request body's `items` array for `POST /api/orders/cart`. -/
structure CartItem where
  product_id : Nat
  quantity : Int
deriving Repr, DecidableEq

/-- The per-line record accumulated in `productDetails` by the cart handler. -/
structure ProductDetail where
  product_id : Nat
  product_name : String
  quantity : Int
  unit_price : ℚ
  total_price : ℚ
  current_stock : Int
deriving Repr, DecidableEq

/-- A row of the `orders` table. -/
structure Order where
  id : Nat
  user_id : Nat
  product_id : Nat
  quantity : Int
  amount : ℚ
  delivery_date : String
  status : String
deriving Repr, DecidableEq

/-- A row of the `order_items` table. -/
structure OrderItem where
  order_id : Nat
  product_id : Nat
  quantity : Int
  unit_price : ℚ
  total_price : ℚ
deriving Repr, DecidableEq

/-- The slice of database state touched by the order routes. -/
structure OrdersDb where
  products : List Product
  profiles : List ClientProfile
  orders : List Order
  orderItems : List OrderItem
deriving Repr, DecidableEq

/-- `!profile.phone || !profile.city || ...` in the cart handler: a profile is
complete when all five address fields are non-empty (JS string truthiness). -/
def profileComplete (p : ClientProfile) : Bool :=
  p.phone != "" && p.city != "" && p.district != "" && p.state != "" && p.address_line != ""

/-- Whether the requesting user's `client_profiles` row exists and is complete
(the `.single()` lookup by `user_id` followed by the field checks). -/
def profileCompleteFor (db : OrdersDb) (userId : Nat) : Bool :=
  match db.profiles.find? (fun pr => pr.user_id = userId) with
  | none => false
  | some pr => profileComplete pr

/-- Outcome of the `POST /api/orders/cart` handler. -/
inductive CartResult where
  | itemsRequired
  | profileIncomplete
  | invalidItem
  | productNotFound (product_id : Nat)
  | insufficientStock (product_name : String) (available : Int)
  | serverError
  | created (order : Order) (items : List OrderItem)
deriving Repr, DecidableEq

/-- A JSON error/success reply: HTTP status, `error` field, and the dedicated
`profileIncomplete` flag that the cart handler adds to one error body. -/
structure ApiResponse where
  status : Nat
  error : Option String
  profileIncomplete : Bool
deriving Repr, DecidableEq

/-- The HTTP reply produced for each cart outcome (statuses and message
strings as written in the handler). -/
def CartResult.response : CartResult → ApiResponse
  | CartResult.itemsRequired =>
      { status := 400, error := some "Cart items are required", profileIncomplete := false }
  | CartResult.profileIncomplete =>
      { status := 400, error := some "Please complete your profile before placing an order",
        profileIncomplete := true }
  | CartResult.invalidItem =>
      { status := 400, error := some "Invalid product or quantity", profileIncomplete := false }
  | CartResult.productNotFound pid =>
      { status := 404, error := some ("Product not found: " ++ toString pid),
        profileIncomplete := false }
  | CartResult.insufficientStock pname available =>
      { status := 400,
        error := some ("Insufficient stock for " ++ pname ++ ". Available: " ++ toString available),
        profileIncomplete := false }
  | CartResult.serverError =>
      { status := 500, error := some "Failed to create order", profileIncomplete := false }
  | CartResult.created _ _ => { status := 201, error := none, profileIncomplete := false }

/-- The validation loop of the cart handler (`for (const item of items)`):
per line, reject a falsy `product_id` or non-positive `quantity`, look the
product up, reject on missing product or insufficient stock, and otherwise
accumulate the running `totalAmount` and the `productDetails` entry (which
snapshots `current_stock` from the pre-checkout read). -/
def validateItems (products : List Product) : List CartItem → Except CartResult (ℚ × List ProductDetail)
  | [] => Except.ok (0, [])
  | item :: rest =>
    if item.product_id = 0 ∨ item.quantity ≤ 0 then Except.error CartResult.invalidItem
    else
      match products.find? (fun p => p.id = item.product_id) with
      | none => Except.error (CartResult.productNotFound item.product_id)
      | some product =>
        if product.stock < item.quantity then
          Except.error (CartResult.insufficientStock product.name product.stock)
        else
          let itemTotal : ℚ := product.price * (item.quantity : ℚ)
          match validateItems products rest with
          | Except.error e => Except.error e
          | Except.ok (amt, ds) =>
            Except.ok (itemTotal + amt,
              { product_id := product.id, product_name := product.name,
                quantity := item.quantity, unit_price := product.price,
                total_price := itemTotal, current_stock := product.stock } :: ds)

/-- The post-insert stock-update loop of the cart handler: for each detail, a
separate `update({ stock: item.current_stock - item.quantity })` keyed on the
product id, overwriting stock with the pre-read value minus that line's
quantity. -/
def applyStockUpdates (products : List Product) (details : List ProductDetail) : List Product :=
  details.foldl
    (fun ps d =>
      ps.map (fun p =>
        if p.id = d.product_id then { p with stock := d.current_stock - d.quantity } else p))
    products

/-- `POST /api/orders/cart`: items-presence check, profile-completeness check,
per-line validation, then the order insert, the order-item inserts, and the
per-line stock updates.  `oid` is the id the store assigns to the new order.
An empty `productDetails` is unreachable after a non-empty `items` validates,
and the handler would crash indexing `productDetails[0]`; that branch is the
catch-all 500. -/
def placeCartOrder (db : OrdersDb) (userId : Nat) (items : List CartItem)
    (delivery_date : String) (oid : Nat) : CartResult × OrdersDb :=
  if items.isEmpty then (CartResult.itemsRequired, db)
  else
    match db.profiles.find? (fun pr => pr.user_id = userId) with
    | none => (CartResult.profileIncomplete, db)
    | some pr =>
      if ¬ profileComplete pr then (CartResult.profileIncomplete, db)
      else
        match validateItems db.products items with
        | Except.error e => (e, db)
        | Except.ok (totalAmount, productDetails) =>
          match productDetails with
          | [] => (CartResult.serverError, db)
          | d0 :: _ =>
            let order : Order :=
              { id := oid, user_id := userId, product_id := d0.product_id,
                quantity := (productDetails.map (fun d => d.quantity)).sum,
                amount := totalAmount, delivery_date := delivery_date, status := "Pending" }
            let orderItems := productDetails.map (fun d =>
              ({ order_id := oid, product_id := d.product_id, quantity := d.quantity,
                 unit_price := d.unit_price, total_price := d.total_price } : OrderItem))
            (CartResult.created order orderItems,
              { db with
                  orders := db.orders ++ [order],
                  orderItems := db.orderItems ++ orderItems,
                  products := applyStockUpdates db.products productDetails })

/-- Outcome of the legacy `POST /api/orders` handler. -/
inductive SingleResult where
  | fieldsRequired
  | productNotFound
  | insufficientStock
  | created (order : Order)
deriving Repr, DecidableEq

/-- The HTTP reply produced for each legacy-order outcome. -/
def SingleResult.response : SingleResult → ApiResponse
  | SingleResult.fieldsRequired =>
      { status := 400, error := some "Product and quantity are required", profileIncomplete := false }
  | SingleResult.productNotFound =>
      { status := 404, error := some "Product not found", profileIncomplete := false }
  | SingleResult.insufficientStock =>
      { status := 400, error := some "Insufficient stock", profileIncomplete := false }
  | SingleResult.created _ => { status := 201, error := none, profileIncomplete := false }

/-- Legacy `POST /api/orders` (single product): field checks, product lookup,
stock check, order insert, then a stock overwrite with the pre-read value
minus the quantity.  It never consults `client_profiles`. -/
def placeSingleOrder (db : OrdersDb) (userId : Nat) (product_id : Nat) (quantity : Int)
    (delivery_date : String) (oid : Nat) : SingleResult × OrdersDb :=
  if product_id = 0 ∨ quantity = 0 then (SingleResult.fieldsRequired, db)
  else
    match db.products.find? (fun p => p.id = product_id) with
    | none => (SingleResult.productNotFound, db)
    | some product =>
      if product.stock < quantity then (SingleResult.insufficientStock, db)
      else
        let amount : ℚ := product.price * (quantity : ℚ)
        let order : Order :=
          { id := oid, user_id := userId, product_id := product_id, quantity := quantity,
            amount := amount, delivery_date := delivery_date, status := "Pending" }
        (SingleResult.created order,
          { db with
              orders := db.orders ++ [order],
              products := db.products.map (fun p =>
                if p.id = product_id then { p with stock := product.stock - quantity } else p) })

/-- A row of the `users` table (the columns the cluster routes touch). -/
structure User where
  id : Nat
  email : String
  password_hash : String
  name : String
  role : String
  location : Option String
  cluster_id : Option Nat
deriving Repr, DecidableEq

/-- A row of the `clusters` table. -/
structure Cluster where
  id : Nat
  name : String
  manager_name : String
  location : Option String
  manager_id : Option Nat
  capacity : Option Nat
  utilization : Int
  status : String
deriving Repr, DecidableEq

/-- A row of the `production` table. -/
structure ProductionRec where
  cluster_id : Nat
  product_id : Nat
  quantity : Int
  shift : String
  date : String
deriving Repr, DecidableEq

/-- The slice of database state touched by the cluster and production routes. -/
structure AdminDb where
  users : List User
  clusters : List Cluster
  production : List ProductionRec
  products : List Product
deriving Repr, DecidableEq

/-- `cluster.capacity || 1000`: JS falsiness maps both a missing capacity and
a zero capacity to the default 1000. -/
def jsOrCapacity : Option Nat → Nat
  | none => 1000
  | some 0 => 1000
  | some c => c

/-- The claim's reading of the capacity default ("C's capacity or 1000 when
unset"), for comparison with the source's `jsOrCapacity`. -/
def claimCapacity : Option Nat → Nat
  | none => 1000
  | some c => c

/-- The claim's utilization formula `min(round(T / capacity × 100), 100)`
with the claim's capacity default, for comparison with the source's
`utilizationValue`. -/
def claimUtilization (total : Int) (capacity : Option Nat) : Int :=
  min (round ((total : ℚ) / (claimCapacity capacity : ℚ) * 100)) 100

/-- Total quantity of a list of production rows (`reduce((sum, p) => sum + p.quantity, 0)`). -/
def sumQuantities (l : List ProductionRec) : Int :=
  (l.map (fun p => p.quantity)).sum

/-- `Math.min(Math.round((total / dailyCapacity) * 100), 100)` with the
capacity defaulting rule applied. -/
def utilizationValue (total : Int) (capacity : Option Nat) : Int :=
  min (round ((total : ℚ) / (jsOrCapacity capacity : ℚ) * 100)) 100

/-- Sum of the cluster's production quantities dated `today`. -/
def todayTotalFor (db : AdminDb) (cluster_id : Nat) (today : String) : Int :=
  sumQuantities (db.production.filter (fun p => p.cluster_id = cluster_id ∧ p.date = today))

/-- `updateClusterUtilization`: read the cluster (return unchanged when the
`.single()` lookup misses), sum today's production for it, and overwrite its
stored `utilization` with the clamped rounded percentage. -/
def updateClusterUtilization (db : AdminDb) (cluster_id : Nat) (today : String) : AdminDb :=
  match db.clusters.find? (fun c => c.id = cluster_id) with
  | none => db
  | some cluster =>
    let utilization := utilizationValue (todayTotalFor db cluster_id today) cluster.capacity
    { db with
        clusters := db.clusters.map (fun c =>
          if c.id = cluster_id then { c with utilization := utilization } else c) }

/-- Outcome of the `POST /api/production` handler. -/
inductive ProductionResult where
  | fieldsRequired
  | noCluster
  | created (record : ProductionRec)
deriving Repr, DecidableEq

/-- `POST /api/production` (cluster role): require all four body fields and a
cluster affiliation on the token, insert the production row, add its quantity
to the referenced product's stock (skipped when the product read misses), and
recompute the user's cluster's utilization from today's production. -/
def createProduction (db : AdminDb) (user_cluster_id : Option Nat) (product_id : Nat)
    (quantity : Int) (shift date today : String) : ProductionResult × AdminDb :=
  if product_id = 0 ∨ quantity = 0 ∨ shift = "" ∨ date = "" then
    (ProductionResult.fieldsRequired, db)
  else
    match user_cluster_id with
    | none => (ProductionResult.noCluster, db)
    | some cluster_id =>
      let record : ProductionRec :=
        { cluster_id := cluster_id, product_id := product_id, quantity := quantity,
          shift := shift, date := date }
      let db1 := { db with production := db.production ++ [record] }
      let db2 :=
        match db1.products.find? (fun p => p.id = product_id) with
        | none => db1
        | some product =>
          { db1 with
              products := db1.products.map (fun p =>
                if p.id = product_id then { p with stock := product.stock + quantity } else p) }
      (ProductionResult.created record, updateClusterUtilization db2 cluster_id today)

/-- The shared read-path utilization computation of the clusters list handler
(`GET /api/clusters`): sum today's production rows for the cluster; when that
total is zero, take the 10 most recent rows (`rows` is the cluster's
production as returned by the store, ordered by date descending), pick the
first row's date, and sum the quantities of the scanned rows bearing that
date; finally apply the clamped rounded percentage. -/
def clusterListUtilization (capacity : Option Nat) (today : String)
    (rows : List ProductionRec) : Int :=
  let todayTotal := sumQuantities (rows.filter (fun p => p.date = today))
  let total :=
    if todayTotal = 0 then
      match rows.take 10 with
      | [] => todayTotal
      | r :: _ => sumQuantities ((rows.take 10).filter (fun p => p.date = r.date))
    else todayTotal
  utilizationValue total capacity

/-- The cluster detail handler (`GET /api/clusters/:id`) repeats the same
fallback computation line for line. -/
def clusterDetailUtilization (capacity : Option Nat) (today : String)
    (rows : List ProductionRec) : Int :=
  clusterListUtilization capacity today rows

/-- Outcome of the `POST /api/clusters` handler. -/
inductive ClusterResult where
  | missingFields
  | emailExists
  | serverError
  | created (cluster : Cluster)
deriving Repr, DecidableEq

/-- Stand-in for the external bcrypt library's `hash(password, 10)`; the hash
contents never matter to the claims. -/
def bcryptHash (password : String) : String :=
  "$2a$10$" ++ password

/-- JS truthiness on an optional string column/field. -/
def truthy : Option String → Option String
  | none => none
  | some s => if s = "" then none else some s

/-- `location || (city && province ? city + ", " + province : city || province)`. -/
def jsLocation (location city province : Option String) : Option String :=
  match truthy location with
  | some l => some l
  | none =>
    match truthy city, truthy province with
    | some c, some p => some (c ++ ", " ++ p)
    | some c, none => some c
    | none, _ => truthy province

/-- `POST /api/clusters` (admin): require the five fields (a zero capacity is
falsy and also rejected), refuse a duplicate email, insert the cluster row,
insert the paired `cluster`-role user pointing at it, rolling the cluster row
back when that insert fails, and finally stamp the new user as the cluster's
manager.  `newClusterId`/`newUserId` are the ids the store assigns;
`userInsertOk` is whether the user insert succeeds. -/
def createCluster (db : AdminDb) (name manager_name email password : String)
    (location city province : Option String) (capacity : Option Nat)
    (newClusterId newUserId : Nat) (userInsertOk : Bool) : ClusterResult × AdminDb :=
  if name = "" ∨ manager_name = "" ∨ email = "" ∨ password = "" ∨
      capacity = none ∨ capacity = some 0 then
    (ClusterResult.missingFields, db)
  else
    let locationValue := jsLocation location city province
    match db.users.find? (fun u => u.email = email) with
    | some _ => (ClusterResult.emailExists, db)
    | none =>
      let password_hash := bcryptHash password
      let cluster : Cluster :=
        { id := newClusterId, name := name, manager_name := manager_name,
          location := locationValue, manager_id := none, capacity := capacity,
          utilization := 0, status := "Active" }
      let db1 := { db with clusters := db.clusters ++ [cluster] }
      if userInsertOk then
        let user : User :=
          { id := newUserId, email := email, password_hash := password_hash,
            name := name ++ " Manager", role := "cluster", location := location,
            cluster_id := some newClusterId }
        let db2 := { db1 with users := db1.users ++ [user] }
        let db3 :=
          { db2 with
              clusters := db2.clusters.map (fun c =>
                if c.id = newClusterId then { c with manager_id := some newUserId } else c) }
        (ClusterResult.created { cluster with manager_id := some newUserId }, db3)
      else
        (ClusterResult.serverError,
          { db1 with clusters := db1.clusters.filter (fun c => ¬ c.id = newClusterId) })

/-- `DELETE /api/clusters/:id` (admin): delete every user whose `cluster_id`
is the cluster, delete the user the cluster's `manager_id` points at, then
delete the cluster row itself. -/
def deleteCluster (db : AdminDb) (cluster_id : Nat) : AdminDb :=
  let usersAfterClusterDelete := db.users.filter (fun u => ¬ u.cluster_id = some cluster_id)
  let managerId :=
    match db.clusters.find? (fun c => c.id = cluster_id) with
    | none => none
    | some c => c.manager_id
  let usersAfterManagerDelete :=
    match managerId with
    | none => usersAfterClusterDelete
    | some m => usersAfterClusterDelete.filter (fun u => ¬ u.id = m)
  { db with
      users := usersAfterManagerDelete,
      clusters := db.clusters.filter (fun c => ¬ c.id = cluster_id) }

/-! ### Characterizing the cart validation loop -/

/-- A cart line that passes every per-line check of the validation loop:
truthy product id, positive quantity, product found, sufficient stock. -/
def lineOk (products : List Product) (it : CartItem) : Bool :=
  decide (it.product_id ≠ 0) && decide (0 < it.quantity) &&
    (match products.find? (fun p => p.id = it.product_id) with
     | none => false
     | some p => decide (it.quantity ≤ p.stock))

/-- The `productDetails` entry the validation loop builds for a passing line
(the `none` branch is arbitrary: it is only reached for failing lines). -/
def detailOf (products : List Product) (it : CartItem) : ProductDetail :=
  match products.find? (fun p => p.id = it.product_id) with
  | some p =>
    { product_id := p.id, product_name := p.name, quantity := it.quantity,
      unit_price := p.price, total_price := p.price * (it.quantity : ℚ),
      current_stock := p.stock }
  | none =>
    { product_id := it.product_id, product_name := "", quantity := it.quantity,
      unit_price := 0, total_price := 0, current_stock := 0 }

/-- The stock the validation loop reads after checkout, by product id. -/
def productStock (db : OrdersDb) (product_id : Nat) : Option Int :=
  (db.products.find? (fun p => p.id = product_id)).map (fun p => p.stock)

/-- The stock the per-line write loop leaves on a given product: each detail
whose `product_id` matches overwrites the accumulator with its own
`current_stock - quantity`. -/
def finalStock (p : Product) (details : List ProductDetail) : Int :=
  details.foldl
    (fun s d => if d.product_id = p.id then d.current_stock - d.quantity else s) p.stock

lemma detailOf_product_id (products : List Product) (it : CartItem) :
    (detailOf products it).product_id = it.product_id := by
  unfold detailOf
  cases hfp : products.find? (fun p => p.id = it.product_id) with
  | none => rfl
  | some p =>
    have := List.find?_some hfp
    simpa using this

lemma validateItems_ok_spec (products : List Product) :
    ∀ (items : List CartItem) (amt : ℚ) (ds : List ProductDetail),
      validateItems products items = Except.ok (amt, ds) →
      ds.length = items.length ∧ amt = (ds.map (fun d => d.total_price)).sum ∧
        ∀ d ∈ ds, d.total_price = d.unit_price * (d.quantity : ℚ) := by
  intro items
  induction items with
  | nil =>
    intro amt ds h
    simp only [validateItems, Except.ok.injEq, Prod.mk.injEq] at h
    obtain ⟨h1, h2⟩ := h
    subst h1
    subst h2
    simp
  | cons it rest ih =>
    intro amt ds h
    unfold validateItems at h
    by_cases hinv : it.product_id = 0 ∨ it.quantity ≤ 0
    · rw [if_pos hinv] at h
      exact absurd h (by simp)
    · rw [if_neg hinv] at h
      cases hfp : products.find? (fun p => p.id = it.product_id) with
      | none =>
        rw [hfp] at h
        exact absurd h (by simp)
      | some p =>
        rw [hfp] at h
        simp only [] at h
        by_cases hst : p.stock < it.quantity
        · rw [if_pos hst] at h
          exact absurd h (by simp)
        · rw [if_neg hst] at h
          cases hrec : validateItems products rest with
          | error e =>
            rw [hrec] at h
            exact absurd h (by simp)
          | ok value =>
            obtain ⟨amt2, ds2⟩ := value
            rw [hrec] at h
            simp only [Except.ok.injEq, Prod.mk.injEq] at h
            obtain ⟨hamt, hds⟩ := h
            obtain ⟨hlen, hsum, hall⟩ := ih amt2 ds2 hrec
            subst hamt
            subst hds
            refine ⟨by simp [hlen], by simp [hsum], ?_⟩
            intro d hd
            rcases List.mem_cons.mp hd with hd1 | hd2
            · subst hd1
              rfl
            · exact hall d hd2

lemma validateItems_all_ok (products : List Product) :
    ∀ (items : List CartItem), (∀ it ∈ items, lineOk products it = true) →
      validateItems products items =
        Except.ok (((items.map (detailOf products)).map (fun d => d.total_price)).sum,
          items.map (detailOf products)) := by
  intro items
  induction items with
  | nil => intro _; simp [validateItems]
  | cons it rest ih =>
    intro hok
    have hit := hok it (by simp)
    have hrest : ∀ x ∈ rest, lineOk products x = true := fun x hx => hok x (by simp [hx])
    unfold lineOk at hit
    cases hfp : products.find? (fun p => p.id = it.product_id) with
    | none => rw [hfp] at hit; simp at hit
    | some p =>
      rw [hfp] at hit
      simp only [Bool.and_eq_true, decide_eq_true_eq] at hit
      obtain ⟨⟨hpid, hq⟩, hstock⟩ := hit
      unfold validateItems
      rw [if_neg (by simp [hpid]; omega), hfp]
      simp only []
      rw [if_neg (by omega), ih hrest]
      simp [detailOf, hfp]

lemma validateItems_append_error (products : List Product) (e : CartResult) :
    ∀ (pre rest : List CartItem), (∀ it ∈ pre, lineOk products it = true) →
      validateItems products rest = Except.error e →
      validateItems products (pre ++ rest) = Except.error e := by
  intro pre
  induction pre with
  | nil => intro rest _ h; simpa using h
  | cons it pre' ih =>
    intro rest hok h
    have hit := hok it (by simp)
    have hpre' : ∀ x ∈ pre', lineOk products x = true := fun x hx => hok x (by simp [hx])
    unfold lineOk at hit
    cases hfp : products.find? (fun p => p.id = it.product_id) with
    | none => rw [hfp] at hit; simp at hit
    | some p =>
      rw [hfp] at hit
      simp only [Bool.and_eq_true, decide_eq_true_eq] at hit
      obtain ⟨⟨hpid, hq⟩, hstock⟩ := hit
      show validateItems products (it :: (pre' ++ rest)) = Except.error e
      unfold validateItems
      rw [if_neg (by simp [hpid]; omega), hfp]
      simp only []
      rw [if_neg (by omega), ih rest hpre' h]

lemma validateItems_error_shape (products : List Product) :
    ∀ (items : List CartItem) (e : CartResult),
      validateItems products items = Except.error e →
      e = CartResult.invalidItem ∨ (∃ pid, e = CartResult.productNotFound pid) ∨
        (∃ n a, e = CartResult.insufficientStock n a) := by
  intro items
  induction items with
  | nil => intro e h; simp [validateItems] at h
  | cons it rest ih =>
    intro e h
    unfold validateItems at h
    by_cases hinv : it.product_id = 0 ∨ it.quantity ≤ 0
    · rw [if_pos hinv] at h
      simp only [Except.error.injEq] at h
      exact Or.inl h.symm
    · rw [if_neg hinv] at h
      cases hfp : products.find? (fun p => p.id = it.product_id) with
      | none =>
        rw [hfp] at h
        simp only [Except.error.injEq] at h
        exact Or.inr (Or.inl ⟨it.product_id, h.symm⟩)
      | some p =>
        rw [hfp] at h
        simp only [] at h
        by_cases hst : p.stock < it.quantity
        · rw [if_pos hst] at h
          simp only [Except.error.injEq] at h
          exact Or.inr (Or.inr ⟨p.name, p.stock, h.symm⟩)
        · rw [if_neg hst] at h
          cases hrec : validateItems products rest with
          | error e2 =>
            rw [hrec] at h
            simp only [Except.error.injEq] at h
            subst h
            exact ih e2 hrec
          | ok value =>
            obtain ⟨amt2, ds2⟩ := value
            rw [hrec] at h
            exact absurd h (by simp)

lemma applyStockUpdates_eq_map (details : List ProductDetail) :
    ∀ (products : List Product),
      applyStockUpdates products details =
        products.map (fun p => { p with stock := finalStock p details }) := by
  induction details with
  | nil =>
    intro products
    show products = _
    simp [finalStock]
  | cons d ds ih =>
    intro products
    show applyStockUpdates (products.map _) ds = _
    rw [ih, List.map_map]
    apply List.map_congr_left
    intro p _
    by_cases hid : p.id = d.product_id
    · simp only [Function.comp_apply, if_pos hid, finalStock]
      simp [hid]
    · simp only [Function.comp_apply, if_neg hid, finalStock]
      have h2 : ¬ d.product_id = p.id := fun hc => hid hc.symm
      simp [h2]

lemma find?_id_map_update (products : List Product) (f : Product → Int) (pid : Nat) :
    (products.map (fun p => { p with stock := f p })).find? (fun p => p.id = pid)
      = (products.find? (fun p => p.id = pid)).map (fun p => { p with stock := f p }) := by
  rw [List.find?_map]
  rfl

lemma foldl_stockUpdate_eq (pid : Nat) :
    ∀ (ds : List ProductDetail) (s : Int),
      ds.foldl (fun acc d => if d.product_id = pid then d.current_stock - d.quantity else acc) s =
        (match (ds.filter (fun d => d.product_id = pid)).getLast? with
         | none => s
         | some d => d.current_stock - d.quantity) := by
  intro ds
  induction ds with
  | nil => intro s; rfl
  | cons d ds' ih =>
    intro s
    show List.foldl _ (if d.product_id = pid then d.current_stock - d.quantity else s) ds' = _
    rw [ih]
    by_cases hd : d.product_id = pid
    · have hfilter : (d :: ds').filter (fun x => x.product_id = pid) =
          d :: ds'.filter (fun x => x.product_id = pid) := by
        simp [List.filter_cons, hd]
      rw [if_pos hd, hfilter]
      cases hl : ds'.filter (fun x => x.product_id = pid) with
      | nil => simp
      | cons b l =>
        rw [List.getLast?_cons_cons, List.getLast?_eq_getLast (b :: l) (by simp)]
    · have hfilter : (d :: ds').filter (fun x => x.product_id = pid) =
          ds'.filter (fun x => x.product_id = pid) := by
        simp [List.filter_cons, hd]
      rw [if_neg hd, hfilter]

lemma sum_pos_of_forall_pos :
    ∀ (l : List Int), (∀ x ∈ l, 0 < x) → l ≠ [] → 0 < l.sum := by
  intro l
  induction l with
  | nil => intro _ h; exact absurd rfl h
  | cons x xs ih =>
    intro hpos _
    rw [List.sum_cons]
    have h1 : 0 < x := hpos x (by simp)
    rcases eq_or_ne xs [] with hxs | hxs
    · subst hxs
      simpa
    · have h2 : 0 < xs.sum := ih (fun y hy => hpos y (by simp [hy])) hxs
      omega

lemma placeCartOrder_error (db : OrdersDb) (userId : Nat) (items : List CartItem)
    (delivery_date : String) (oid : Nat) (pr : ClientProfile) (e : CartResult)
    (hne : items ≠ [])
    (hprofile : db.profiles.find? (fun x => x.user_id = userId) = some pr)
    (hcomplete : profileComplete pr = true)
    (hval : validateItems db.products items = Except.error e) :
    placeCartOrder db userId items delivery_date oid = (e, db) := by
  unfold placeCartOrder
  rw [if_neg (by simp [List.isEmpty_iff, hne]), hprofile]
  simp only []
  rw [if_neg (by simp [hcomplete]), hval]

lemma placeCartOrder_ok (db : OrdersDb) (userId : Nat) (items : List CartItem)
    (delivery_date : String) (oid : Nat) (pr : ClientProfile) (totalAmount : ℚ)
    (d0 : ProductDetail) (rest : List ProductDetail)
    (hne : items ≠ [])
    (hprofile : db.profiles.find? (fun x => x.user_id = userId) = some pr)
    (hcomplete : profileComplete pr = true)
    (hval : validateItems db.products items = Except.ok (totalAmount, d0 :: rest)) :
    placeCartOrder db userId items delivery_date oid =
      (CartResult.created
        { id := oid, user_id := userId, product_id := d0.product_id,
          quantity := ((d0 :: rest).map (fun d => d.quantity)).sum,
          amount := totalAmount, delivery_date := delivery_date, status := "Pending" }
        ((d0 :: rest).map (fun d =>
          ({ order_id := oid, product_id := d.product_id, quantity := d.quantity,
             unit_price := d.unit_price, total_price := d.total_price } : OrderItem))),
        { db with
            orders := db.orders ++
              [{ id := oid, user_id := userId, product_id := d0.product_id,
                 quantity := ((d0 :: rest).map (fun d => d.quantity)).sum,
                 amount := totalAmount, delivery_date := delivery_date, status := "Pending" }],
            orderItems := db.orderItems ++
              ((d0 :: rest).map (fun d =>
                ({ order_id := oid, product_id := d.product_id, quantity := d.quantity,
                   unit_price := d.unit_price, total_price := d.total_price } : OrderItem))),
            products := applyStockUpdates db.products (d0 :: rest) }) := by
  unfold placeCartOrder
  rw [if_neg (by simp [List.isEmpty_iff, hne]), hprofile]
  simp only []
  rw [if_neg (by simp [hcomplete]), hval]

/-- C1: for a profile-complete client whose cart has exactly one line for
product P (quantity Q > 0; every other line valid and for a different
product): when Q ≤ stock the checkout returns 201 and P's stock becomes
stock − Q; when Q > stock it returns the 400 `InsufficientStock` error
naming the product and the available quantity, and the state is unchanged. -/
theorem cart_stock_check_and_decrement (db : OrdersDb) (userId : Nat) (P : Product) (Q : Int)
    (pre post : List CartItem) (delivery_date : String) (oid : Nat) (pr : ClientProfile)
    (hprofile : db.profiles.find? (fun x => x.user_id = userId) = some pr)
    (hcomplete : profileComplete pr = true)
    (hP : db.products.find? (fun p => p.id = P.id) = some P)
    (hPid : P.id ≠ 0) (hQ : 0 < Q)
    (hothers : ∀ it ∈ pre ++ post, lineOk db.products it = true ∧ it.product_id ≠ P.id) :
    (Q ≤ P.stock →
      ((placeCartOrder db userId (pre ++ { product_id := P.id, quantity := Q } :: post)
          delivery_date oid).1.response).status = 201 ∧
      productStock
          (placeCartOrder db userId (pre ++ { product_id := P.id, quantity := Q } :: post)
            delivery_date oid).2 P.id = some (P.stock - Q)) ∧
    (P.stock < Q →
      placeCartOrder db userId (pre ++ { product_id := P.id, quantity := Q } :: post)
          delivery_date oid = (CartResult.insufficientStock P.name P.stock, db) ∧
      (CartResult.insufficientStock P.name P.stock).response =
        { status := 400,
          error := some ("Insufficient stock for " ++ P.name ++ ". Available: "
            ++ toString P.stock),
          profileIncomplete := false }) := by
  have hne : pre ++ ({ product_id := P.id, quantity := Q } : CartItem) :: post ≠ [] := by
    simp
  constructor
  · intro hQle
    have hlineP : lineOk db.products { product_id := P.id, quantity := Q } = true := by
      simp [lineOk, hP, hPid, hQ, hQle]
    have hall : ∀ it ∈ pre ++ ({ product_id := P.id, quantity := Q } : CartItem) :: post,
        lineOk db.products it = true := by
      intro it hit
      rcases List.mem_append.mp hit with h1 | h2
      · exact (hothers it (List.mem_append_left _ h1)).1
      · rcases List.mem_cons.mp h2 with h3 | h4
        · subst h3
          exact hlineP
        · exact (hothers it (List.mem_append_right _ h4)).1
    have hval := validateItems_all_ok db.products _ hall
    cases hd : (pre ++ ({ product_id := P.id, quantity := Q } : CartItem) :: post).map
        (detailOf db.products) with
    | nil => simp at hd
    | cons d0 rest =>
      rw [hd] at hval
      have heq := placeCartOrder_ok db userId _ delivery_date oid pr _ d0 rest hne
        hprofile hcomplete hval
      rw [heq]
      refine ⟨rfl, ?_⟩
      show productStock _ P.id = _
      unfold productStock
      show ((applyStockUpdates db.products (d0 :: rest)).find?
        (fun p => p.id = P.id)).map (fun p => p.stock) = _
      rw [applyStockUpdates_eq_map, find?_id_map_update, hP]
      show some (finalStock P (d0 :: rest)) = _
      rw [← hd]
      have hfs : finalStock P
          ((pre ++ ({ product_id := P.id, quantity := Q } : CartItem) :: post).map
            (detailOf db.products)) = P.stock - Q := by
        unfold finalStock
        rw [foldl_stockUpdate_eq, List.filter_map]
        have hcongr : (pre ++ ({ product_id := P.id, quantity := Q } : CartItem) :: post).filter
              ((fun d => decide (d.product_id = P.id)) ∘ detailOf db.products)
            = (pre ++ ({ product_id := P.id, quantity := Q } : CartItem) :: post).filter
              (fun it => it.product_id = P.id) :=
          List.filter_congr (fun it _ => by simp [Function.comp, detailOf_product_id])
        rw [hcongr]
        have hfilter : (pre ++ ({ product_id := P.id, quantity := Q } : CartItem) :: post).filter
            (fun it => it.product_id = P.id) =
            [({ product_id := P.id, quantity := Q } : CartItem)] := by
          rw [List.filter_append]
          have h1 : pre.filter (fun it => it.product_id = P.id) = [] :=
            List.filter_eq_nil_iff.mpr (fun it hit => by
              simp [(hothers it (List.mem_append_left _ hit)).2])
          have h3 : post.filter (fun it => it.product_id = P.id) = [] :=
            List.filter_eq_nil_iff.mpr (fun it hit => by
              simp [(hothers it (List.mem_append_right _ hit)).2])
          rw [h1, List.filter_cons]
          simp [h3]
        rw [hfilter]
        simp [detailOf, hP]
      rw [hfs]
  · intro hfail
    have hmid : validateItems db.products
        (({ product_id := P.id, quantity := Q } : CartItem) :: post)
        = Except.error (CartResult.insufficientStock P.name P.stock) := by
      unfold validateItems
      rw [if_neg (by simp [hPid]; omega)]
      simp [hP, hfail]
    have hpre : ∀ it ∈ pre, lineOk db.products it = true :=
      fun it hit => (hothers it (List.mem_append_left _ hit)).1
    have hval := validateItems_append_error db.products _ pre _ hpre hmid
    rw [placeCartOrder_error db userId _ delivery_date oid pr _ hne hprofile hcomplete hval]
    exact ⟨rfl, rfl⟩

/-- Witness for `cart_stock_check_and_decrement`: a one-line cart of 3 units
against stock 10 succeeds and leaves stock 7. -/
theorem cart_stock_check_and_decrement_witness :
    ((placeCartOrder
        { products := [{ id := 1, name := "Plate", price := 45, stock := 10 }],
          profiles := [{ user_id := 7, phone := "1", city := "c", district := "d",
                         state := "s", address_line := "a" }],
          orders := [], orderItems := [] }
        7 [{ product_id := 1, quantity := 3 }] "2025-01-01" 11).1.response).status = 201 ∧
    productStock
        (placeCartOrder
          { products := [{ id := 1, name := "Plate", price := 45, stock := 10 }],
            profiles := [{ user_id := 7, phone := "1", city := "c", district := "d",
                           state := "s", address_line := "a" }],
            orders := [], orderItems := [] }
          7 [{ product_id := 1, quantity := 3 }] "2025-01-01" 11).2 1 = some (10 - 3) :=
  (cart_stock_check_and_decrement
      { products := [{ id := 1, name := "Plate", price := 45, stock := 10 }],
        profiles := [{ user_id := 7, phone := "1", city := "c", district := "d",
                       state := "s", address_line := "a" }],
        orders := [], orderItems := [] }
      7 { id := 1, name := "Plate", price := 45, stock := 10 } 3 [] [] "2025-01-01" 11
      { user_id := 7, phone := "1", city := "c", district := "d",
        state := "s", address_line := "a" }
      rfl (by decide) rfl (by decide) (by decide) (by simp)).1 (by decide)

/-- C3: when a valid cart contains several lines for the same product P, all
of them are checked against the same pre-read stock snapshot, the checkout
succeeds, and P's final stock is its original stock minus only the LAST such
line's quantity — which differs from subtracting the sum of all its lines'
quantities whenever there are two or more. -/
theorem cart_duplicate_lines_last_write_wins (db : OrdersDb) (userId : Nat) (P : Product)
    (items : List CartItem) (delivery_date : String) (oid : Nat) (pr : ClientProfile)
    (hprofile : db.profiles.find? (fun x => x.user_id = userId) = some pr)
    (hcomplete : profileComplete pr = true)
    (hP : db.products.find? (fun p => p.id = P.id) = some P)
    (hok : ∀ it ∈ items, lineOk db.products it = true)
    (hdup : items.filter (fun it => it.product_id = P.id) ≠ []) :
    (∃ o its, (placeCartOrder db userId items delivery_date oid).1 = CartResult.created o its) ∧
    (∀ d ∈ (items.map (detailOf db.products)).filter (fun d => d.product_id = P.id),
        d.current_stock = P.stock) ∧
    productStock (placeCartOrder db userId items delivery_date oid).2 P.id =
      some (P.stock -
        ((items.filter (fun it => it.product_id = P.id)).getLast hdup).quantity) ∧
    (2 ≤ (items.filter (fun it => it.product_id = P.id)).length →
      P.stock - ((items.filter (fun it => it.product_id = P.id)).getLast hdup).quantity ≠
        P.stock -
          ((items.filter (fun it => it.product_id = P.id)).map (fun it => it.quantity)).sum) := by
  have hne : items ≠ [] := by
    intro h
    subst h
    simp at hdup
  have hposq : ∀ it ∈ items, 0 < it.quantity := by
    intro it hit
    have h := hok it hit
    simp only [lineOk, Bool.and_eq_true, decide_eq_true_eq] at h
    exact h.1.2
  have hval := validateItems_all_ok db.products items hok
  cases hd : items.map (detailOf db.products) with
  | nil =>
    rw [List.map_eq_nil_iff] at hd
    exact absurd hd hne
  | cons d0 rest =>
    rw [hd] at hval
    have heq := placeCartOrder_ok db userId items delivery_date oid pr _ d0 rest hne
      hprofile hcomplete hval
    have hdetail : ∀ it ∈ items, it.product_id = P.id →
        detailOf db.products it =
          { product_id := P.id, product_name := P.name, quantity := it.quantity,
            unit_price := P.price, total_price := P.price * (it.quantity : ℚ),
            current_stock := P.stock } := by
      intro it _ hitP
      unfold detailOf
      rw [hitP, hP]
    refine ⟨?_, ?_, ?_, ?_⟩
    · rw [heq]
      exact ⟨_, _, rfl⟩
    · intro d hd2
      obtain ⟨hdmem, hdid⟩ := List.mem_filter.mp hd2
      rw [← hd] at hdmem
      obtain ⟨it, hitmem, hitd⟩ := List.mem_map.mp hdmem
      subst hitd
      have hitP : it.product_id = P.id := by
        have := detailOf_product_id db.products it
        simp only [decide_eq_true_eq] at hdid
        omega
      rw [hdetail it hitmem hitP]
    · rw [heq]
      show productStock _ P.id = _
      unfold productStock
      show ((applyStockUpdates db.products (d0 :: rest)).find?
        (fun p => p.id = P.id)).map (fun p => p.stock) = _
      rw [applyStockUpdates_eq_map, find?_id_map_update, hP]
      show some (finalStock P (d0 :: rest)) = _
      rw [← hd]
      have hfs : finalStock P (items.map (detailOf db.products)) =
          P.stock - ((items.filter (fun it => it.product_id = P.id)).getLast hdup).quantity := by
        unfold finalStock
        rw [foldl_stockUpdate_eq, List.filter_map]
        have hcongr : items.filter ((fun d => decide (d.product_id = P.id)) ∘ detailOf db.products)
            = items.filter (fun it => it.product_id = P.id) :=
          List.filter_congr (fun it _ => by simp [Function.comp, detailOf_product_id])
        rw [hcongr, List.getLast?_map,
          List.getLast?_eq_getLast (items.filter (fun it => it.product_id = P.id)) hdup]
        have hlast := List.getLast_mem hdup
        obtain ⟨hlmem, hlid⟩ := List.mem_filter.mp hlast
        simp only [decide_eq_true_eq] at hlid
        have hmapsome : Option.map (detailOf db.products)
            (some ((items.filter (fun it => it.product_id = P.id)).getLast hdup))
            = some (detailOf db.products
                ((items.filter (fun it => it.product_id = P.id)).getLast hdup)) := rfl
        rw [hmapsome, hdetail _ hlmem hlid]
      rw [hfs]
    · intro h2len hEq
      have hab :
          ((items.filter (fun it => it.product_id = P.id)).getLast hdup).quantity =
            ((items.filter (fun it => it.product_id = P.id)).map (fun it => it.quantity)).sum := by
        omega
      have hsplit := List.dropLast_concat_getLast hdup
      have hsum : ((items.filter (fun it => it.product_id = P.id)).map (fun it => it.quantity)).sum
          = ((items.filter (fun it => it.product_id = P.id)).dropLast.map
              (fun it => it.quantity)).sum
            + ((items.filter (fun it => it.product_id = P.id)).getLast hdup).quantity := by
        conv_lhs => rw [← hsplit]
        rw [List.map_append, List.sum_append]
        simp
      have hdroppos :
          0 < ((items.filter (fun it => it.product_id = P.id)).dropLast.map
            (fun it => it.quantity)).sum := by
        apply sum_pos_of_forall_pos
        · intro x hx
          obtain ⟨it, hitmem, hitq⟩ := List.mem_map.mp hx
          subst hitq
          have h1 : it ∈ items.filter (fun it => it.product_id = P.id) :=
            (List.dropLast_sublist _).subset hitmem
          exact hposq it (List.mem_of_mem_filter h1)
        · have hlen : 0 < (items.filter (fun it => it.product_id = P.id)).dropLast.length := by
            rw [List.length_dropLast]
            omega
          intro hnil
          rw [List.map_eq_nil_iff] at hnil
          rw [hnil] at hlen
          simp at hlen
      omega

/-- Witness for `cart_duplicate_lines_last_write_wins`: two lines of 3 and 4
units for the same product with stock 10 leave stock 10 − 4 = 6, not 3. -/
theorem cart_duplicate_lines_last_write_wins_witness :
    productStock
        (placeCartOrder
          { products := [{ id := 1, name := "Plate", price := 45, stock := 10 }],
            profiles := [{ user_id := 7, phone := "1", city := "c", district := "d",
                           state := "s", address_line := "a" }],
            orders := [], orderItems := [] }
          7 [{ product_id := 1, quantity := 3 }, { product_id := 1, quantity := 4 }]
          "2025-01-01" 11).2 1 =
      some (10 -
        ((([{ product_id := 1, quantity := 3 },
             { product_id := 1, quantity := 4 }] : List CartItem).filter
            (fun it => it.product_id = 1)).getLast (by decide)).quantity) :=
  (cart_duplicate_lines_last_write_wins
      { products := [{ id := 1, name := "Plate", price := 45, stock := 10 }],
        profiles := [{ user_id := 7, phone := "1", city := "c", district := "d",
                       state := "s", address_line := "a" }],
        orders := [], orderItems := [] }
      7 { id := 1, name := "Plate", price := 45, stock := 10 }
      [{ product_id := 1, quantity := 3 }, { product_id := 1, quantity := 4 }]
      "2025-01-01" 11
      { user_id := 7, phone := "1", city := "c", district := "d",
        state := "s", address_line := "a" }
      rfl (by decide) rfl (by decide) (by decide)).2.2.1

/-- C2: a successful cart checkout with N line items appends exactly one
order row and exactly N order-item rows all referencing it, with
`order.amount` the exact rational sum of `unit_price × quantity` over the
items and `order.quantity` the sum of the line quantities. -/
theorem cart_checkout_row_accounting (db : OrdersDb) (userId : Nat) (items : List CartItem)
    (delivery_date : String) (oid : Nat) (order : Order) (its : List OrderItem) (db' : OrdersDb)
    (h : placeCartOrder db userId items delivery_date oid = (CartResult.created order its, db')) :
    db'.orders = db.orders ++ [order] ∧
    db'.orderItems = db.orderItems ++ its ∧
    its.length = items.length ∧
    (∀ it ∈ its, it.order_id = order.id) ∧
    order.amount = (its.map (fun it => it.unit_price * (it.quantity : ℚ))).sum ∧
    order.quantity = (its.map (fun it => it.quantity)).sum := by
  unfold placeCartOrder at h
  by_cases hempty : items.isEmpty
  · rw [if_pos hempty] at h
    exact absurd h (by simp)
  · rw [if_neg hempty] at h
    cases hprof : db.profiles.find? (fun pr => pr.user_id = userId) with
    | none =>
      rw [hprof] at h
      exact absurd h (by simp)
    | some pr =>
      rw [hprof] at h
      simp only [] at h
      by_cases hcomp : ¬ profileComplete pr = true
      · rw [if_pos hcomp] at h
        exact absurd h (by simp)
      · rw [if_neg hcomp] at h
        cases hval : validateItems db.products items with
        | error e =>
          rw [hval] at h
          have he : e = CartResult.created order its := by
            simpa using congrArg Prod.fst h
          rcases validateItems_error_shape db.products items e hval with h1 | ⟨pid, h1⟩ | ⟨n, a, h1⟩ <;>
            subst h1 <;> exact absurd he (by simp)
        | ok value =>
          obtain ⟨totalAmount, productDetails⟩ := value
          rw [hval] at h
          simp only [] at h
          cases hds : productDetails with
          | nil =>
            rw [hds] at h
            exact absurd h (by simp)
          | cons d0 rest =>
            rw [hds] at h
            rw [hds] at hval
            simp only [Prod.mk.injEq, CartResult.created.injEq] at h
            obtain ⟨⟨horder, hits⟩, hdb⟩ := h
            obtain ⟨hlen, hsum, hall⟩ :=
              validateItems_ok_spec db.products items totalAmount (d0 :: rest) hval
            subst horder
            subst hits
            subst hdb
            refine ⟨rfl, rfl, by simpa using hlen, ?_, ?_, ?_⟩
            · intro it hit
              obtain ⟨d, _, hd⟩ := List.mem_map.mp hit
              subst hd
              rfl
            · show totalAmount = _
              rw [hsum, List.map_map]
              apply congrArg
              apply List.map_congr_left
              intro d hd
              exact hall d hd
            · rw [List.map_map]
              rfl

/-- Witness for `cart_checkout_row_accounting`: a two-line cart (45×2 and
35×3) creates one order of amount 195 and two items. -/
theorem cart_checkout_row_accounting_witness :
    (({ products := [{ id := 1, name := "Plate", price := 45, stock := 10 - 2 },
                     { id := 2, name := "Bowl", price := 35, stock := 5 - 3 }],
        profiles := [{ user_id := 7, phone := "1", city := "c", district := "d",
                       state := "s", address_line := "a" }],
        orders := [{ id := 11, user_id := 7, product_id := 1, quantity := 2 + (3 + 0),
                     amount := (45 : ℚ) * ((2 : Int) : ℚ) + ((35 : ℚ) * ((3 : Int) : ℚ) + 0),
                     delivery_date := "2025-01-01", status := "Pending" }],
        orderItems := [{ order_id := 11, product_id := 1, quantity := 2, unit_price := 45,
                         total_price := (45 : ℚ) * ((2 : Int) : ℚ) },
                       { order_id := 11, product_id := 2, quantity := 3, unit_price := 35,
                         total_price := (35 : ℚ) * ((3 : Int) : ℚ) }] } : OrdersDb).orders =
      ([] : List Order) ++ [{ id := 11, user_id := 7, product_id := 1, quantity := 2 + (3 + 0),
                              amount := (45 : ℚ) * ((2 : Int) : ℚ) + ((35 : ℚ) * ((3 : Int) : ℚ) + 0),
                              delivery_date := "2025-01-01", status := "Pending" }]) ∧
    ([{ order_id := 11, product_id := 1, quantity := 2, unit_price := 45,
        total_price := (45 : ℚ) * ((2 : Int) : ℚ) },
      { order_id := 11, product_id := 2, quantity := 3, unit_price := 35,
        total_price := (35 : ℚ) * ((3 : Int) : ℚ) }] : List OrderItem).length =
      ([{ product_id := 1, quantity := 2 }, { product_id := 2, quantity := 3 }] : List CartItem).length :=
  by
  have h :=
    cart_checkout_row_accounting
      { products := [{ id := 1, name := "Plate", price := 45, stock := 10 },
                     { id := 2, name := "Bowl", price := 35, stock := 5 }],
        profiles := [{ user_id := 7, phone := "1", city := "c", district := "d",
                       state := "s", address_line := "a" }],
        orders := [], orderItems := [] }
      7 [{ product_id := 1, quantity := 2 }, { product_id := 2, quantity := 3 }] "2025-01-01" 11
      { id := 11, user_id := 7, product_id := 1, quantity := 2 + (3 + 0),
        amount := (45 : ℚ) * ((2 : Int) : ℚ) + ((35 : ℚ) * ((3 : Int) : ℚ) + 0),
        delivery_date := "2025-01-01", status := "Pending" }
      [{ order_id := 11, product_id := 1, quantity := 2, unit_price := 45,
         total_price := (45 : ℚ) * ((2 : Int) : ℚ) },
       { order_id := 11, product_id := 2, quantity := 3, unit_price := 35,
         total_price := (35 : ℚ) * ((3 : Int) : ℚ) }]
      { products := [{ id := 1, name := "Plate", price := 45, stock := 10 - 2 },
                     { id := 2, name := "Bowl", price := 35, stock := 5 - 3 }],
        profiles := [{ user_id := 7, phone := "1", city := "c", district := "d",
                       state := "s", address_line := "a" }],
        orders := [{ id := 11, user_id := 7, product_id := 1, quantity := 2 + (3 + 0),
                     amount := (45 : ℚ) * ((2 : Int) : ℚ) + ((35 : ℚ) * ((3 : Int) : ℚ) + 0),
                     delivery_date := "2025-01-01", status := "Pending" }],
        orderItems := [{ order_id := 11, product_id := 1, quantity := 2, unit_price := 45,
                         total_price := (45 : ℚ) * ((2 : Int) : ℚ) },
                       { order_id := 11, product_id := 2, quantity := 3, unit_price := 35,
                         total_price := (35 : ℚ) * ((3 : Int) : ℚ) }] }
      rfl
  exact ⟨h.1, h.2.2.1⟩

/-- C4 counterexample: a client with no `client_profiles` row submitting an
empty items list is answered with the generic `Cart items are required`
validation error, not with the `ProfileIncomplete` error, because the cart
handler checks the items array before reading the profile. -/
theorem cart_empty_items_not_profile_error :
    profileCompleteFor { products := [], profiles := [], orders := [], orderItems := [] } 7 = false ∧
    placeCartOrder { products := [], profiles := [], orders := [], orderItems := [] } 7 [] "2025-01-01" 1 =
      (CartResult.itemsRequired, { products := [], profiles := [], orders := [], orderItems := [] }) ∧
    CartResult.itemsRequired.response.profileIncomplete = false ∧
    CartResult.itemsRequired ≠ CartResult.profileIncomplete := by
  refine ⟨rfl, rfl, rfl, ?_⟩
  intro h
  exact CartResult.noConfusion h

/-- C4 (amended): for a client whose profile is missing or incomplete, any
cart checkout whose items list is a non-empty array fails with the
`ProfileIncomplete` error, which carries a dedicated `profileIncomplete`
flag distinguishing it from the generic validation failures; an empty or
absent items list instead fails first with the generic items-required error. -/
theorem cart_checkout_profile_incomplete (db : OrdersDb) (userId : Nat)
    (items : List CartItem) (delivery_date : String) (oid : Nat)
    (hne : items ≠ [])
    (hprof : profileCompleteFor db userId = false) :
    placeCartOrder db userId items delivery_date oid = (CartResult.profileIncomplete, db) ∧
    CartResult.profileIncomplete.response =
      { status := 400, error := some "Please complete your profile before placing an order",
        profileIncomplete := true } ∧
    CartResult.itemsRequired.response.profileIncomplete = false ∧
    CartResult.invalidItem.response.profileIncomplete = false := by
  refine ⟨?_, rfl, rfl, rfl⟩
  unfold placeCartOrder
  rw [if_neg (by simpa [List.isEmpty_iff] using hne)]
  unfold profileCompleteFor at hprof
  cases h : db.profiles.find? (fun pr => pr.user_id = userId) with
  | none => rfl
  | some pr =>
    rw [h] at hprof
    simp only [] at hprof
    simp [hprof]

/-- Witness for `cart_checkout_profile_incomplete` at a concrete incomplete
profile (empty phone) and a concrete one-line cart. -/
theorem cart_checkout_profile_incomplete_witness :
    placeCartOrder
        { products := [{ id := 1, name := "Plate", price := 45, stock := 10 }],
          profiles := [{ user_id := 7, phone := "", city := "c", district := "d",
                         state := "s", address_line := "a" }],
          orders := [], orderItems := [] }
        7 [{ product_id := 1, quantity := 2 }] "2025-01-01" 1 =
      (CartResult.profileIncomplete,
        { products := [{ id := 1, name := "Plate", price := 45, stock := 10 }],
          profiles := [{ user_id := 7, phone := "", city := "c", district := "d",
                         state := "s", address_line := "a" }],
          orders := [], orderItems := [] }) :=
  (cart_checkout_profile_incomplete _ 7 _ "2025-01-01" 1 (by decide) (by decide)).1

/-- C9: when the paired user-account insert fails during cluster creation,
the handler deletes the just-created cluster row before reporting failure,
so the database state is exactly as before the request. -/
theorem cluster_create_rollback (db : AdminDb) (name manager_name email password : String)
    (location city province : Option String) (capacity : Option Nat)
    (newClusterId newUserId : Nat)
    (hname : name ≠ "") (hmn : manager_name ≠ "") (hemail : email ≠ "") (hpw : password ≠ "")
    (hcap : capacity ≠ none) (hcap0 : capacity ≠ some 0)
    (hfresh : ∀ c ∈ db.clusters, c.id ≠ newClusterId)
    (hmail : db.users.find? (fun u => u.email = email) = none) :
    createCluster db name manager_name email password location city province capacity
        newClusterId newUserId false = (ClusterResult.serverError, db) := by
  unfold createCluster
  rw [if_neg (by simp [hname, hmn, hemail, hpw, hcap, hcap0]), hmail]
  simp only [Bool.false_eq_true, if_false]
  have hfilter :
      (db.clusters ++
          [({ id := newClusterId, name := name, manager_name := manager_name,
              location := jsLocation location city province, manager_id := none,
              capacity := capacity, utilization := 0, status := "Active" } : Cluster)]).filter
        (fun c => ¬ c.id = newClusterId) = db.clusters := by
    have h1 : db.clusters.filter (fun c => ¬ c.id = newClusterId) = db.clusters := by
      rw [List.filter_eq_self]
      intro c hc
      simpa using hfresh c hc
    rw [List.filter_append, h1]
    simp
  simp only [hfilter]

/-- Witness for `cluster_create_rollback` on a one-cluster database. -/
theorem cluster_create_rollback_witness :
    createCluster
        { users := [], production := [], products := [],
          clusters := [{ id := 5, name := "Sukkur", manager_name := "M", location := none,
                         manager_id := none, capacity := some 100, utilization := 0,
                         status := "Active" }] }
        "Khairpur" "Mgr" "k@greenverse.com" "pw123" none (some "Khairpur") (some "Sindh")
        (some 80) 9 3 false =
      (ClusterResult.serverError,
        { users := [], production := [], products := [],
          clusters := [{ id := 5, name := "Sukkur", manager_name := "M", location := none,
                         manager_id := none, capacity := some 100, utilization := 0,
                         status := "Active" }] }) :=
  cluster_create_rollback _ _ _ _ _ _ _ _ _ 9 3
    (by decide) (by decide) (by decide) (by decide) (by decide) (by decide)
    (by decide) (by decide)

/-- C10: the legacy single-product order route performs no client-profile
check: no outcome of `placeSingleOrder` ever carries the `profileIncomplete`
flag, and a client whose profile is missing or incomplete still gets a 201
whenever the product exists with sufficient stock and the fields are present. -/
theorem legacy_order_no_profile_check (db : OrdersDb) (userId product_id : Nat)
    (quantity : Int) (delivery_date : String) (oid : Nat)
    (_hprof : profileCompleteFor db userId = false) :
    (∀ (db' : OrdersDb) (u p : Nat) (q : Int) (d : String) (o : Nat),
        ((placeSingleOrder db' u p q d o).1.response).profileIncomplete = false) ∧
    (product_id ≠ 0 → quantity ≠ 0 →
      ∀ P, db.products.find? (fun p => p.id = product_id) = some P → ¬ P.stock < quantity →
        ((placeSingleOrder db userId product_id quantity delivery_date oid).1.response).status
          = 201) := by
  constructor
  · intro db' u p q d o
    cases h : (placeSingleOrder db' u p q d o).1 <;> simp [SingleResult.response]
  · intro hpid hq P hfind hstock
    simp [placeSingleOrder, hpid, hq, hfind, hstock, SingleResult.response]

/-- Witness for `legacy_order_no_profile_check`: a profile-less client
successfully orders 3 units of a stocked product through the legacy route. -/
theorem legacy_order_no_profile_check_witness :
    ((placeSingleOrder
        { products := [{ id := 1, name := "Plate", price := 45, stock := 10 }],
          profiles := [], orders := [], orderItems := [] }
        7 1 3 "2025-01-01" 1).1.response).status = 201 :=
  (legacy_order_no_profile_check
      { products := [{ id := 1, name := "Plate", price := 45, stock := 10 }],
        profiles := [], orders := [], orderItems := [] }
      7 1 3 "2025-01-01" 1 (by decide)).2
    (by decide) (by decide)
    { id := 1, name := "Plate", price := 45, stock := 10 } (by decide) (by decide)

/-! ### Production inserts and utilization recomputation -/

lemma jsOr_eq_claim (capacity : Option Nat) (h : capacity ≠ some 0) :
    jsOrCapacity capacity = claimCapacity capacity := by
  cases capacity with
  | none => rfl
  | some c =>
    cases c with
    | zero => exact absurd rfl h
    | succ n => rfl

lemma find?_clusters_map (clusters : List Cluster) (g : Cluster → Cluster)
    (hg : ∀ c, (g c).id = c.id) (cid : Nat) :
    (clusters.map g).find? (fun c => c.id = cid) =
      (clusters.find? (fun c => c.id = cid)).map g := by
  rw [List.find?_map]
  have hfun : ((fun c => decide (c.id = cid)) ∘ g) = fun c => decide (c.id = cid) := by
    funext c
    simp [Function.comp, hg c]
  rw [hfun]

lemma find?_products_map (products : List Product) (g : Product → Product)
    (hg : ∀ p, (g p).id = p.id) (pid : Nat) :
    (products.map g).find? (fun p => p.id = pid) =
      (products.find? (fun p => p.id = pid)).map g := by
  rw [List.find?_map]
  have hfun : ((fun p => decide (p.id = pid)) ∘ g) = fun p => decide (p.id = pid) := by
    funext p
    simp [Function.comp, hg p]
  rw [hfun]

lemma createProduction_state (db : AdminDb) (cluster_id product_id : Nat) (quantity : Int)
    (shift date today : String)
    (hpid : product_id ≠ 0) (hq : quantity ≠ 0) (hshift : shift ≠ "") (hdate : date ≠ "") :
    ∃ db2 : AdminDb,
      createProduction db (some cluster_id) product_id quantity shift date today =
        (ProductionResult.created
          { cluster_id := cluster_id, product_id := product_id, quantity := quantity,
            shift := shift, date := date },
          updateClusterUtilization db2 cluster_id today) ∧
      db2.clusters = db.clusters ∧
      db2.production = db.production ++
        [{ cluster_id := cluster_id, product_id := product_id, quantity := quantity,
           shift := shift, date := date }] ∧
      (∀ P, db.products.find? (fun p => p.id = product_id) = some P →
          db2.products = db.products.map (fun p =>
            if p.id = product_id then { p with stock := P.stock + quantity } else p)) := by
  unfold createProduction
  rw [if_neg (by simp [hpid, hq, hshift, hdate])]
  simp only []
  cases hfp : db.products.find? (fun p => p.id = product_id) with
  | none =>
    refine ⟨_, rfl, rfl, rfl, ?_⟩
    intro P hPP
    exact absurd hPP (by simp)
  | some product =>
    refine ⟨_, rfl, rfl, rfl, ?_⟩
    intro P hPP
    simp only [Option.some.injEq] at hPP
    subst hPP
    rfl

lemma updateClusterUtilization_found (db : AdminDb) (cid : Nat) (today : String) (C : Cluster)
    (hC : db.clusters.find? (fun c => c.id = cid) = some C) :
    (updateClusterUtilization db cid today).clusters.find? (fun c => c.id = cid) =
      some { C with utilization := utilizationValue (todayTotalFor db cid today) C.capacity } ∧
    (updateClusterUtilization db cid today).production = db.production ∧
    (updateClusterUtilization db cid today).products = db.products := by
  unfold updateClusterUtilization
  rw [hC]
  simp only []
  refine ⟨?_, by trivial, by trivial⟩
  rw [find?_clusters_map _ _ (fun c => by by_cases h : c.id = cid <;> simp [h]) cid, hC]
  have hid : C.id = cid := by simpa using List.find?_some hC
  simp [hid]

/-- C5: after a production insert of any quantity for cluster C dated today,
C's stored utilization equals `min(round(T / capacity × 100), 100)` where T
sums all of C's production rows dated today (including the new one) and
capacity defaults to 1000 when unset (a stored capacity of 0 is excluded:
JS falsiness also maps it to 1000). -/
theorem production_insert_recomputes_utilization (db : AdminDb) (cluster_id product_id : Nat)
    (quantity : Int) (shift today : String) (C : Cluster)
    (hpid : product_id ≠ 0) (hq : quantity ≠ 0) (hshift : shift ≠ "") (htoday : today ≠ "")
    (hC : db.clusters.find? (fun c => c.id = cluster_id) = some C)
    (hcap : C.capacity ≠ some 0) :
    ((createProduction db (some cluster_id) product_id quantity shift today
        today).2).clusters.find? (fun c => c.id = cluster_id) =
      some { C with utilization :=
        (claimUtilization
          (sumQuantities
            (((createProduction db (some cluster_id) product_id quantity shift today
                today).2).production.filter
              (fun p => p.cluster_id = cluster_id ∧ p.date = today)))
          C.capacity) } := by
  obtain ⟨db2, heq, hclusters, hproduction, _⟩ :=
    createProduction_state db cluster_id product_id quantity shift today today hpid hq hshift htoday
  have hC2 : db2.clusters.find? (fun c => c.id = cluster_id) = some C := by
    rw [hclusters]
    exact hC
  obtain ⟨hfind, hprod2, _⟩ := updateClusterUtilization_found db2 cluster_id today C hC2
  rw [heq]
  show (updateClusterUtilization db2 cluster_id today).clusters.find? (fun c => c.id = cluster_id)
    = some { C with utilization :=
      (claimUtilization
        (sumQuantities
          ((updateClusterUtilization db2 cluster_id today).production.filter
            (fun p => p.cluster_id = cluster_id ∧ p.date = today)))
        C.capacity) }
  rw [hfind, hprod2]
  have hutil : utilizationValue (todayTotalFor db2 cluster_id today) C.capacity =
      claimUtilization
        (sumQuantities (db2.production.filter
          (fun p => p.cluster_id = cluster_id ∧ p.date = today)))
        C.capacity := by
    unfold utilizationValue claimUtilization todayTotalFor
    rw [jsOr_eq_claim _ hcap]
  rw [hutil]

/-- C7: a successful production insert appends the production row, adds the
inserted quantity to the referenced product's stock, leaves every other
product row unchanged, and recomputes the inserting user's cluster's stored
utilization from today's post-insert production. -/
theorem production_insert_increments_stock (db : AdminDb) (cluster_id product_id : Nat)
    (quantity : Int) (shift date today : String) (P : Product) (C : Cluster)
    (hpid : product_id ≠ 0) (hq : 0 < quantity) (hshift : shift ≠ "") (hdate : date ≠ "")
    (hP : db.products.find? (fun p => p.id = product_id) = some P)
    (hC : db.clusters.find? (fun c => c.id = cluster_id) = some C) :
    (createProduction db (some cluster_id) product_id quantity shift date today).1 =
      ProductionResult.created
        { cluster_id := cluster_id, product_id := product_id, quantity := quantity,
          shift := shift, date := date } ∧
    ((createProduction db (some cluster_id) product_id quantity shift date
        today).2).production =
      db.production ++
        [{ cluster_id := cluster_id, product_id := product_id, quantity := quantity,
           shift := shift, date := date }] ∧
    ((createProduction db (some cluster_id) product_id quantity shift date
        today).2).products.find? (fun p => p.id = product_id) =
      some { P with stock := P.stock + quantity } ∧
    (∀ p ∈ db.products, p.id ≠ product_id →
      p ∈ ((createProduction db (some cluster_id) product_id quantity shift date
        today).2).products) ∧
    ((createProduction db (some cluster_id) product_id quantity shift date
        today).2).clusters.find? (fun c => c.id = cluster_id) =
      some { C with utilization :=
        (utilizationValue
          (todayTotalFor
            (createProduction db (some cluster_id) product_id quantity shift date today).2
            cluster_id today)
          C.capacity) } := by
  have hq' : quantity ≠ 0 := by omega
  obtain ⟨db2, heq, hclusters, hproduction, hproducts⟩ :=
    createProduction_state db cluster_id product_id quantity shift date today hpid hq' hshift hdate
  have hprodmap := hproducts P hP
  have hC2 : db2.clusters.find? (fun c => c.id = cluster_id) = some C := by
    rw [hclusters]
    exact hC
  obtain ⟨hfind, hprod2, hprods2⟩ := updateClusterUtilization_found db2 cluster_id today C hC2
  rw [heq]
  refine ⟨rfl, ?_, ?_, ?_, ?_⟩
  · show (updateClusterUtilization db2 cluster_id today).production = _
    rw [hprod2, hproduction]
  · show (updateClusterUtilization db2 cluster_id today).products.find?
      (fun p => p.id = product_id) = _
    rw [hprods2, hprodmap]
    rw [find?_products_map _ _ (fun p => by by_cases h : p.id = product_id <;> simp [h])
      product_id, hP]
    have hid : P.id = product_id := by simpa using List.find?_some hP
    simp [hid]
  · intro p hp hne
    show p ∈ (updateClusterUtilization db2 cluster_id today).products
    rw [hprods2, hprodmap]
    exact List.mem_map.mpr ⟨p, hp, by simp [hne]⟩
  · show (updateClusterUtilization db2 cluster_id today).clusters.find?
      (fun c => c.id = cluster_id) = _
    have httf : todayTotalFor (updateClusterUtilization db2 cluster_id today) cluster_id today
        = todayTotalFor db2 cluster_id today := by
      unfold todayTotalFor
      rw [hprod2]
    rw [hfind, httf]

/-- Witness for `production_insert_recomputes_utilization`: a 30-unit insert
for a capacity-100 cluster on an empty log. -/
theorem production_insert_recomputes_utilization_witness :
    ((createProduction
        { users := [], production := [], products := [],
          clusters := [{ id := 5, name := "Sukkur", manager_name := "M", location := none,
                         manager_id := none, capacity := some 100, utilization := 0,
                         status := "Active" }] }
        (some 5) 1 30 "Morning" "2025-10-11" "2025-10-11").2).clusters.find?
        (fun c => c.id = 5) =
      some { id := 5, name := "Sukkur", manager_name := "M", location := none,
             manager_id := none, capacity := some 100,
             utilization :=
               (claimUtilization
                 (sumQuantities
                   (((createProduction
                       { users := [], production := [], products := [],
                         clusters := [{ id := 5, name := "Sukkur", manager_name := "M",
                                        location := none, manager_id := none,
                                        capacity := some 100, utilization := 0,
                                        status := "Active" }] }
                       (some 5) 1 30 "Morning" "2025-10-11" "2025-10-11").2).production.filter
                     (fun p => p.cluster_id = 5 ∧ p.date = "2025-10-11")))
                 (some 100)),
             status := "Active" } :=
  production_insert_recomputes_utilization
    { users := [], production := [], products := [],
      clusters := [{ id := 5, name := "Sukkur", manager_name := "M", location := none,
                     manager_id := none, capacity := some 100, utilization := 0,
                     status := "Active" }] }
    5 1 30 "Morning" "2025-10-11"
    { id := 5, name := "Sukkur", manager_name := "M", location := none,
      manager_id := none, capacity := some 100, utilization := 0, status := "Active" }
    (by decide) (by decide) (by decide) (by decide) rfl (by decide)

/-- Witness for `production_insert_increments_stock`: a 30-unit insert for a
product with stock 10 leaves stock 10 + 30. -/
theorem production_insert_increments_stock_witness :
    ((createProduction
        { users := [],
          clusters := [{ id := 5, name := "Sukkur", manager_name := "M", location := none,
                         manager_id := none, capacity := some 100, utilization := 0,
                         status := "Active" }],
          production := [],
          products := [{ id := 1, name := "Plate", price := 45, stock := 10 }] }
        (some 5) 1 30 "Morning" "2025-10-11" "2025-10-11").2).products.find?
        (fun p => p.id = 1) =
      some { id := 1, name := "Plate", price := 45, stock := 10 + 30 } :=
  (production_insert_increments_stock
      { users := [],
        clusters := [{ id := 5, name := "Sukkur", manager_name := "M", location := none,
                       manager_id := none, capacity := some 100, utilization := 0,
                       status := "Active" }],
        production := [],
        products := [{ id := 1, name := "Plate", price := 45, stock := 10 }] }
      5 1 30 "Morning" "2025-10-11" "2025-10-11"
      { id := 1, name := "Plate", price := 45, stock := 10 }
      { id := 5, name := "Sukkur", manager_name := "M", location := none,
        manager_id := none, capacity := some 100, utilization := 0, status := "Active" }
      (by decide) (by decide) (by decide) (by decide) rfl rfl).2.2.1

/-- C8: admin cluster creation appends one cluster row and exactly one paired
`cluster`-role user whose `cluster_id` is the new cluster's id, with the
cluster's `manager_id` set to that user; deleting the cluster then removes
both rows, restoring the original state. -/
theorem cluster_create_delete_round_trip (db : AdminDb)
    (name manager_name email password : String)
    (location city province : Option String) (capacity : Option Nat)
    (newClusterId newUserId : Nat)
    (hname : name ≠ "") (hmn : manager_name ≠ "") (hemail : email ≠ "") (hpw : password ≠ "")
    (hcapn : capacity ≠ none) (hcap0 : capacity ≠ some 0)
    (hmail : db.users.find? (fun u => u.email = email) = none)
    (hcfresh : ∀ c ∈ db.clusters, c.id ≠ newClusterId)
    (hufresh : ∀ u ∈ db.users, u.id ≠ newUserId)
    (hpaired : ∀ u ∈ db.users, u.cluster_id ≠ some newClusterId) :
    ∃ (u : User) (c : Cluster),
      createCluster db name manager_name email password location city province capacity
          newClusterId newUserId true =
        (ClusterResult.created c,
          { db with users := db.users ++ [u], clusters := db.clusters ++ [c] }) ∧
      u.role = "cluster" ∧ u.cluster_id = some newClusterId ∧ u.id = newUserId ∧
      c.id = newClusterId ∧ c.manager_id = some newUserId ∧
      (db.users ++ [u]).filter (fun x => x.cluster_id = some newClusterId) = [u] ∧
      deleteCluster { db with users := db.users ++ [u], clusters := db.clusters ++ [c] }
          newClusterId = db := by
  refine ⟨{ id := newUserId, email := email, password_hash := bcryptHash password,
            name := name ++ " Manager", role := "cluster", location := location,
            cluster_id := some newClusterId },
          { id := newClusterId, name := name, manager_name := manager_name,
            location := jsLocation location city province, manager_id := some newUserId,
            capacity := capacity, utilization := 0, status := "Active" },
          ?_, rfl, rfl, rfl, rfl, rfl, ?_, ?_⟩
  · unfold createCluster
    rw [if_neg (by simp [hname, hmn, hemail, hpw, hcapn, hcap0]), hmail]
    simp only []
    have hmap : (db.clusters ++
          [({ id := newClusterId, name := name, manager_name := manager_name,
              location := jsLocation location city province, manager_id := none,
              capacity := capacity, utilization := 0, status := "Active" } : Cluster)]).map
          (fun c => if c.id = newClusterId then { c with manager_id := some newUserId } else c)
        = db.clusters ++
          [({ id := newClusterId, name := name, manager_name := manager_name,
              location := jsLocation location city province, manager_id := some newUserId,
              capacity := capacity, utilization := 0, status := "Active" } : Cluster)] := by
      rw [List.map_append]
      have h1 : ∀ c ∈ db.clusters,
          (fun c => if c.id = newClusterId then { c with manager_id := some newUserId } else c) c
            = id c := fun c hc => by simp [hcfresh c hc]
      rw [List.map_congr_left h1, List.map_id]
      simp
    rw [hmap, if_pos trivial]
  · rw [List.filter_append]
    have h1 : db.users.filter (fun x => x.cluster_id = some newClusterId) = [] :=
      List.filter_eq_nil_iff.mpr (fun u hu => by simp [hpaired u hu])
    rw [h1]
    simp
  · unfold deleteCluster
    have hu1 : (db.users ++
          [({ id := newUserId, email := email, password_hash := bcryptHash password,
              name := name ++ " Manager", role := "cluster", location := location,
              cluster_id := some newClusterId } : User)]).filter
          (fun u => ¬ u.cluster_id = some newClusterId) = db.users := by
      have h1 : db.users.filter (fun u => ¬ u.cluster_id = some newClusterId) = db.users := by
        rw [List.filter_eq_self]
        intro u hu
        simpa using hpaired u hu
      rw [List.filter_append, h1]
      simp
    have hc1 : (db.clusters ++
          [({ id := newClusterId, name := name, manager_name := manager_name,
              location := jsLocation location city province, manager_id := some newUserId,
              capacity := capacity, utilization := 0, status := "Active" } : Cluster)]).find?
          (fun c => c.id = newClusterId) =
        some ({ id := newClusterId, name := name, manager_name := manager_name,
                location := jsLocation location city province, manager_id := some newUserId,
                capacity := capacity, utilization := 0, status := "Active" } : Cluster) := by
      rw [List.find?_append]
      have h2 : db.clusters.find? (fun c => c.id = newClusterId) = none :=
        List.find?_eq_none.mpr (fun c hc => by simp [hcfresh c hc])
      simp [h2]
    rw [hu1, hc1]
    simp only []
    have hu2 : db.users.filter (fun u => ¬ u.id = newUserId) = db.users := by
      rw [List.filter_eq_self]
      intro u hu
      simpa using hufresh u hu
    have hc2 : (db.clusters ++
          [({ id := newClusterId, name := name, manager_name := manager_name,
              location := jsLocation location city province, manager_id := some newUserId,
              capacity := capacity, utilization := 0, status := "Active" } : Cluster)]).filter
          (fun c => ¬ c.id = newClusterId) = db.clusters := by
      have h3 : db.clusters.filter (fun c => ¬ c.id = newClusterId) = db.clusters := by
        rw [List.filter_eq_self]
        intro c hc
        simpa using hcfresh c hc
      rw [List.filter_append, h3]
      simp
    rw [hu2, hc2]

/-- Witness for `cluster_create_delete_round_trip`: create-then-delete on an
empty database restores the empty database. -/
theorem cluster_create_delete_round_trip_witness :
    deleteCluster
        (createCluster { users := [], clusters := [], production := [], products := [] }
          "Khairpur" "Mgr" "k@greenverse.com" "pw123" none (some "Khairpur") (some "Sindh")
          (some 80) 9 3 true).2 9 =
      { users := [], clusters := [], production := [], products := [] } := by
  obtain ⟨u, c, heq, _, _, _, _, _, _, hdel⟩ :=
    cluster_create_delete_round_trip
      { users := [], clusters := [], production := [], products := [] }
      "Khairpur" "Mgr" "k@greenverse.com" "pw123" none (some "Khairpur") (some "Sindh")
      (some 80) 9 3
      (by decide) (by decide) (by decide) (by decide) (by decide) (by decide)
      (by decide) (by decide) (by decide) (by decide)
  rw [heq]
  exact hdel

/-- C6: the cluster list and detail read paths share one utilization
computation; when the cluster's production rows dated today sum to a nonzero
total they use that total, and when that sum is zero (with the rows ordered
by date descending, all quantities positive) they use the most recent
production date — the most recent date with nonzero output — summing its
rows among the 10 most recent records, through the same clamped rounded
formula. -/
theorem cluster_read_fallback_utilization (capacity : Option Nat) (today : String)
    (rows : List ProductionRec)
    (hsorted : List.Pairwise (fun a b => b.date ≤ a.date) rows)
    (hpos : ∀ r ∈ rows, 0 < r.quantity) :
    clusterDetailUtilization capacity today rows = clusterListUtilization capacity today rows ∧
    (sumQuantities (rows.filter (fun p => p.date = today)) ≠ 0 →
      clusterListUtilization capacity today rows =
        utilizationValue (sumQuantities (rows.filter (fun p => p.date = today))) capacity) ∧
    (sumQuantities (rows.filter (fun p => p.date = today)) = 0 →
      ∀ (r0 : ProductionRec) (tl : List ProductionRec), rows = r0 :: tl →
        clusterListUtilization capacity today rows =
          utilizationValue
            (sumQuantities ((rows.take 10).filter (fun p => p.date = r0.date))) capacity ∧
        0 < sumQuantities ((rows.take 10).filter (fun p => p.date = r0.date)) ∧
        ∀ r ∈ rows, r.date ≤ r0.date) := by
  refine ⟨rfl, ?_, ?_⟩
  · intro h
    unfold clusterListUtilization
    simp only []
    rw [if_neg h]
  · intro h r0 tl hrows
    subst hrows
    have hmemf : r0 ∈ ((r0 :: tl).take 10).filter (fun p => p.date = r0.date) :=
      List.mem_filter.mpr ⟨List.mem_cons_self r0 (tl.take 9), by simp⟩
    refine ⟨?_, ?_, ?_⟩
    · unfold clusterListUtilization
      simp only []
      rw [if_pos h]
      have htake : List.take 10 (r0 :: tl) = r0 :: List.take 9 tl := rfl
      rw [htake]
    · apply sum_pos_of_forall_pos
      · intro x hx
        obtain ⟨r, hrmem, hrq⟩ := List.mem_map.mp hx
        subst hrq
        exact hpos r (List.take_subset 10 _ (List.mem_of_mem_filter hrmem))
      · intro hnil
        rw [List.map_eq_nil_iff] at hnil
        rw [hnil] at hmemf
        exact absurd hmemf (List.not_mem_nil r0)
    · intro r hr
      rcases List.mem_cons.mp hr with h1 | h2
      · subst h1
        exact le_refl _
      · exact (List.pairwise_cons.mp hsorted).1 r h2

/-- Witness for `cluster_read_fallback_utilization`: with no production
today, the fallback sums the most recent date (2025-10-10, total 50) among
the 10 most recent rows. -/
theorem cluster_read_fallback_utilization_witness :
    clusterListUtilization (some 100) "2025-10-11"
        [{ cluster_id := 5, product_id := 1, quantity := 30, shift := "Morning",
           date := "2025-10-10" },
         { cluster_id := 5, product_id := 1, quantity := 20, shift := "Evening",
           date := "2025-10-10" }] =
      utilizationValue
        (sumQuantities
          ((([{ cluster_id := 5, product_id := 1, quantity := 30, shift := "Morning",
                date := "2025-10-10" },
              { cluster_id := 5, product_id := 1, quantity := 20, shift := "Evening",
                date := "2025-10-10" }] : List ProductionRec).take 10).filter
            (fun p => p.date = "2025-10-10")))
        (some 100) :=
  ((cluster_read_fallback_utilization (some 100) "2025-10-11"
      [{ cluster_id := 5, product_id := 1, quantity := 30, shift := "Morning",
         date := "2025-10-10" },
       { cluster_id := 5, product_id := 1, quantity := 20, shift := "Evening",
         date := "2025-10-10" }]
      (by simp [List.pairwise_cons]) (by decide)).2.2 (by decide)
    { cluster_id := 5, product_id := 1, quantity := 30, shift := "Morning",
      date := "2025-10-10" }
    [{ cluster_id := 5, product_id := 1, quantity := 20, shift := "Evening",
       date := "2025-10-10" }] rfl).1
